import Mathlib

/-!
Verification development for the commy commit-message generator.

The Python sources are shallowly embedded:
  - text is `List Char` (one element per Python character) or `String`;
  - subprocess outcomes are an explicit `RunResult` datum;
  - raising vs returning is `PyOutcome`;
  - the YAML configuration and the module-level `DEFAULT_CONFIG` are a small
    explicit heap of dictionaries, so that Python's aliasing of the nested
    `"ai"` dictionary under `dict.copy()` is represented faithfully.
-/

/-! ## Python string helpers -/

/-- Python whitespace characters recognised by `str.strip()` (ASCII range). -/
def isPySpace (c : Char) : Bool :=
  c = ' ' || c = '\t' || c = '\n' || c = '\r' || c = '\x0b' || c = '\x0c'

/-- Python `str.strip()`: drop leading and trailing whitespace. -/
def pyStrip (s : List Char) : List Char :=
  ((s.dropWhile isPySpace).reverse.dropWhile isPySpace).reverse

/-- Python `str.lower()` (ASCII behaviour, which covers the config values used). -/
def pyLowerS (s : String) : String :=
  String.mk (s.data.map Char.toLower)

/-- Python `str.replace(old, new)` for a one-character pattern `old`. -/
def pyReplaceChar (s : List Char) (old : Char) (new : List Char) : List Char :=
  match s with
  | [] => []
  | c :: rest => (if c = old then new else [c]) ++ pyReplaceChar rest old new

/-- Python slice `s[:t]` for an `int` bound `t` (negative bounds count from the end). -/
def pySliceTo (s : List Char) (t : Int) : List Char :=
  if 0 ≤ t then s.take t.toNat else s.take (s.length - (-t).toNat)

/-! ## Subprocess outcomes (git_utils.py) -/

/-- Outcome of `subprocess.run([...git...], capture_output=True, text=True, check=True)`:
either the command succeeded (exit status 0, with its stdout and stderr),
or it exited non-zero (`subprocess.CalledProcessError`), or the binary was
absent (`FileNotFoundError`). -/
inductive RunResult where
  | ok (stdout stderr : List Char)
  | calledProcessError (stderr : List Char)
  | fileNotFound
deriving DecidableEq

/-- Python exceptions that escape the modelled functions. -/
inductive PyExc where
  | fileNotFoundError
  | runtimeError (msg : List Char)
deriving DecidableEq

/-- Either a Python return value or an uncaught exception. -/
inductive PyOutcome (α : Type) where
  | ret (val : α)
  | exc (e : PyExc)
deriving DecidableEq

/-! ## git_utils.py -/

/-- The fixed truncation marker appended by `get_staged_diff`. -/
def truncMarker : List Char := "\n[... diff truncated due to size ...]".data

/-- `get_staged_diff(truncate_length)` from git_utils.py, given the diff text the
subprocess produced.  Python's `if truncate_length and len(diff) > truncate_length`
treats `None` and `0` as falsy, and slices `diff[:truncate_length]`. -/
def get_staged_diff (diff : List Char) (truncate_length : Option Int) : List Char × Bool :=
  match truncate_length with
  | none => (diff, false)
  | some t =>
      if t ≠ 0 ∧ (diff.length : Int) > t then
        (pySliceTo diff t ++ truncMarker, true)
      else
        (diff, false)

/-- `has_staged_changes()` from git_utils.py, given the outcome of
`git diff --cached --name-only`.  Only `subprocess.CalledProcessError` is caught;
a missing binary raises `FileNotFoundError`. -/
def has_staged_changes (res : RunResult) : PyOutcome Bool :=
  match res with
  | RunResult.ok out _ => PyOutcome.ret (!(pyStrip out).isEmpty)
  | RunResult.calledProcessError _ => PyOutcome.ret false
  | RunResult.fileNotFound => PyOutcome.exc PyExc.fileNotFoundError

/-- The argv list `["git", "commit", "-m", safe_message]` built by
`commit_changes`, with `safe_message = message.replace('"', '\\"')`. -/
def commitArgv (message : List Char) : List (List Char) :=
  ["git".data, "commit".data, "-m".data, pyReplaceChar message '"' ['\\', '"']]

/-- `commit_changes(message)` from git_utils.py, given the outcome of the
`git commit -m` subprocess call: returns `(returncode == 0, printed line)`.
With `check=True` a success carries exit status 0, so the returned Bool is
true; `CalledProcessError` is caught, its stderr printed, and false returned. -/
def commit_changes (res : RunResult) : PyOutcome (Bool × Option (List Char)) :=
  match res with
  | RunResult.ok _ _ => PyOutcome.ret (true, none)
  | RunResult.calledProcessError err =>
      PyOutcome.ret (false, some ("Commit failed: ".data ++ err))
  | RunResult.fileNotFound => PyOutcome.exc PyExc.fileNotFoundError

/-! ## config_utils.py: values, dictionaries and the heap

Python dictionaries are mutable objects; `DEFAULT_CONFIG.copy()` is a shallow
copy, so the nested `"ai"` dictionary is shared between the copy and the
module-level constant.  We therefore model dictionaries as heap cells addressed
by `Nat`, with `DEFAULT_CONFIG` living at address 0 and its `"ai"` dictionary
at address 1. -/

/-- A primitive (immutable) Python value stored in the configuration:
a string, an int, or a float literal (represented exactly as a rational,
since the program only stores and forwards it). -/
inductive Prim where
  | str (v : String)
  | int (v : Int)
  | float (v : Rat)
deriving DecidableEq

/-- A value slot of a Python dictionary: a primitive, or a reference to
another dictionary on the heap. -/
inductive PVal where
  | prim (p : Prim)
  | ref (a : Nat)
deriving DecidableEq

/-- A parsed YAML value (the overlay returned by `yaml.safe_load`): a primitive
or a nested mapping.  Freshly parsed, so represented as a pure tree. -/
inductive OVal where
  | prim (p : Prim)
  | dict (entries : List (String × OVal))

/-- Ordered association-list lookup (first match), as in a Python dict. -/
def getAssoc {α β : Type} [DecidableEq α] : List (α × β) → α → Option β
  | [], _ => none
  | (k, v) :: rest, key => if k = key then some v else getAssoc rest key

/-- Ordered association-list update: replace in place if the key is present
(keeping insertion order), append otherwise — Python `d[k] = v`. -/
def setAssoc {α β : Type} [DecidableEq α] : List (α × β) → α → β → List (α × β)
  | [], key, val => [(key, val)]
  | (k, v) :: rest, key, val =>
      if k = key then (key, val) :: rest else (k, v) :: setAssoc rest key val

/-- The heap of Python dictionaries: contents per address, plus the next
fresh address. -/
structure Heap where
  mem : List (Nat × List (String × PVal))
  next : Nat

/-- Entries of the dictionary at address `a` (empty if unallocated). -/
def Heap.find (h : Heap) (a : Nat) : List (String × PVal) :=
  (getAssoc h.mem a).getD []

/-- Overwrite the entries of the dictionary at address `a`. -/
def Heap.write (h : Heap) (a : Nat) (es : List (String × PVal)) : Heap :=
  ⟨setAssoc h.mem a es, h.next⟩

/-- Allocate a fresh dictionary with the given entries, returning the new
heap and the fresh address. -/
def Heap.allocDict (h : Heap) (es : List (String × PVal)) : Heap × Nat :=
  (⟨setAssoc h.mem h.next es, h.next + 1⟩, h.next)

/-- Materialise a list of freshly parsed YAML entries on the heap (nested
mappings get fresh addresses). -/
def allocEntries : Heap → List (String × OVal) → Heap × List (String × PVal)
  | h, [] => (h, [])
  | h, (k, OVal.prim p) :: rest =>
      match allocEntries h rest with
      | (h2, pes) => (h2, (k, PVal.prim p) :: pes)
  | h, (k, OVal.dict es) :: rest =>
      match allocEntries h es with
      | (h1, inner) =>
        match h1.allocDict inner with
        | (h2, a) =>
          match allocEntries h2 rest with
          | (h3, pes) => (h3, (k, PVal.ref a) :: pes)
termination_by _ l => sizeOf l
decreasing_by all_goals (simp_wf; try omega)

/-- Materialise a single freshly parsed YAML value on the heap.  For a
primitive this is the identity on the heap (primitives are immutable values);
a nested mapping gets a fresh dictionary. -/
def allocOVal (h : Heap) : OVal → Heap × PVal
  | OVal.prim p => (h, PVal.prim p)
  | OVal.dict es =>
      match allocEntries h es with
      | (h1, inner) =>
        match h1.allocDict inner with
        | (h2, a) => (h2, PVal.ref a)

/-- `_merge_dicts(base, overlay)` from config_utils.py: for each overlay entry
`(k, v)` in order, recurse when both `base[k]` and `v` are dictionaries
(mutating the base dictionary in place, wherever it is aliased from),
otherwise assign `base[k] = v`. -/
def mergeEntries : Heap → Nat → List (String × OVal) → Heap
  | h, _, [] => h
  | h, base, (k, OVal.prim p) :: rest =>
      match allocOVal h (OVal.prim p) with
      | (h1, pv) => mergeEntries (h1.write base (setAssoc (h1.find base) k pv)) base rest
  | h, base, (k, OVal.dict es) :: rest =>
      match getAssoc (h.find base) k with
      | some (PVal.ref a) => mergeEntries (mergeEntries h a es) base rest
      | _ =>
          match allocOVal h (OVal.dict es) with
          | (h1, pv) => mergeEntries (h1.write base (setAssoc (h1.find base) k pv)) base rest
termination_by _ _ l => sizeOf l
decreasing_by all_goals (simp_wf; try omega)

/-- Entries of the nested `"ai"` dictionary of `DEFAULT_CONFIG` (heap address 1). -/
def defaultAiEntries : List (String × PVal) :=
  [("provider", PVal.prim (Prim.str "openai")),
   ("model", PVal.prim (Prim.str "gpt-3.5-turbo")),
   ("temperature", PVal.prim (Prim.float (7 / 10))),
   ("max_tokens", PVal.prim (Prim.int 100)),
   ("api_key", PVal.prim (Prim.str ""))]

/-- Top-level entries of `DEFAULT_CONFIG` (heap address 0); its `"ai"` value is
a reference to the dictionary at address 1. -/
def defaultTopEntries : List (String × PVal) :=
  [("ai", PVal.ref 1),
   ("commit_style", PVal.prim (Prim.str "conventional")),
   ("diff_truncation_limit", PVal.prim (Prim.int 4000))]

/-- The initial heap: the module-level `DEFAULT_CONFIG` at address 0, its
nested `"ai"` dictionary at address 1. -/
def defaultHeap : Heap :=
  ⟨[(0, defaultTopEntries), (1, defaultAiEntries)], 2⟩

/-- `load_config()` from config_utils.py with the file present and parsed to
`ovE`: `merged_config = DEFAULT_CONFIG.copy()` (a shallow copy — a fresh
top-level dictionary with the same value slots, so its `"ai"` slot still
references the dictionary at address 1), then `_merge_dicts(merged_config,
config)`.  Returns the address of the merged dictionary and the final heap. -/
def load_config_model (h : Heap) (ovE : List (String × OVal)) : Nat × Heap :=
  match h.allocDict (h.find 0) with
  | (h1, a) => (a, mergeEntries h1 a ovE)

/-- Top-level lookup `config[k]` on the dictionary at address `a`. -/
def cfgTop (h : Heap) (a : Nat) (k : String) : Option PVal :=
  getAssoc (h.find a) k

/-- Nested lookup `config["ai"][k]` on the dictionary at address `a`. -/
def cfgAi (h : Heap) (a : Nat) (k : String) : Option PVal :=
  match cfgTop h a "ai" with
  | some (PVal.ref r) => getAssoc (h.find r) k
  | _ => none

/-! ## Association-list and heap lemmas -/

theorem getAssoc_setAssoc_self {α β : Type} [DecidableEq α]
    (m : List (α × β)) (a : α) (es : β) :
    getAssoc (setAssoc m a es) a = some es := by
  induction m with
  | nil => simp [getAssoc, setAssoc]
  | cons kv rest ih =>
      obtain ⟨k, v⟩ := kv
      by_cases hk : k = a
      · simp [getAssoc, setAssoc, hk]
      · simp [getAssoc, setAssoc, hk, ih]

theorem setAssoc_setAssoc {α β : Type} [DecidableEq α]
    (m : List (α × β)) (a : α) (e1 e2 : β) :
    setAssoc (setAssoc m a e1) a e2 = setAssoc m a e2 := by
  induction m with
  | nil => simp [setAssoc]
  | cons kv rest ih =>
      obtain ⟨k, v⟩ := kv
      by_cases hk : k = a
      · simp [setAssoc, hk]
      · simp [setAssoc, hk, ih]

theorem setAssoc_self {α β : Type} [DecidableEq α]
    (m : List (α × β)) (a : α) (v : β) (h : getAssoc m a = some v) :
    setAssoc m a v = m := by
  induction m with
  | nil => simp [getAssoc] at h
  | cons kv rest ih =>
      obtain ⟨k, w⟩ := kv
      by_cases hk : k = a
      · simp [getAssoc, hk] at h
        simp [setAssoc, hk, h]
      · simp [getAssoc, hk] at h
        simp [setAssoc, hk, ih h]

theorem Heap.find_write_self (h : Heap) (a : Nat) (es : List (String × PVal)) :
    (h.write a es).find a = es := by
  simp [Heap.find, Heap.write, getAssoc_setAssoc_self]

theorem Heap.mem_write_self (h : Heap) (a : Nat) (es : List (String × PVal)) :
    getAssoc (h.write a es).mem a = some es := by
  simp [Heap.write, getAssoc_setAssoc_self]

theorem Heap.write_write (h : Heap) (a : Nat) (e1 e2 : List (String × PVal)) :
    (h.write a e1).write a e2 = h.write a e2 := by
  simp [Heap.write, setAssoc_setAssoc]

theorem Heap.write_self (h : Heap) (a : Nat)
    (hm : getAssoc h.mem a = some (h.find a)) :
    h.write a (h.find a) = h := by
  obtain ⟨mem, nx⟩ := h
  simp only [Heap.write, Heap.find] at *
  simp [setAssoc_self mem a _ hm]

/-! ## Typed user overlays

A configuration file whose keys are a subset of the recognised keys is
described by which leaves it provides.  `encodeOverlay` renders it as the
parsed YAML mapping handed to the merge. -/

/-- Optional leaves of the `"ai"` section of a user configuration file. -/
structure AiOverlay where
  provider : Option Prim
  model : Option Prim
  temperature : Option Prim
  max_tokens : Option Prim
  api_key : Option Prim

/-- A user configuration file whose keys are a subset of the recognised keys. -/
structure UserOverlay where
  ai : Option AiOverlay
  commit_style : Option Prim
  diff_truncation_limit : Option Prim

/-- Render an optional leaf as zero or one YAML entries. -/
def optPrimE (k : String) : Option Prim → List (String × OVal)
  | some p => [(k, OVal.prim p)]
  | none => []

/-- The YAML entries of the `"ai"` section of a user overlay. -/
def encodeAi (a : AiOverlay) : List (String × OVal) :=
  optPrimE "provider" a.provider ++
  optPrimE "model" a.model ++
  optPrimE "temperature" a.temperature ++
  optPrimE "max_tokens" a.max_tokens ++
  optPrimE "api_key" a.api_key

/-- The zero or one top-level `"ai"` entries of a user overlay. -/
def encodeAiTop : Option AiOverlay → List (String × OVal)
  | some a => [("ai", OVal.dict (encodeAi a))]
  | none => []

/-- Render a user overlay as the parsed YAML mapping. -/
def encodeOverlay (ov : UserOverlay) : List (String × OVal) :=
  encodeAiTop ov.ai ++
  optPrimE "commit_style" ov.commit_style ++
  optPrimE "diff_truncation_limit" ov.diff_truncation_limit

/-! ## Merge evaluation lemmas -/

theorem merge_nil (h : Heap) (base : Nat) : mergeEntries h base [] = h := by
  simp [mergeEntries]

theorem merge_cons_prim (h : Heap) (base : Nat) (k : String) (p : Prim)
    (rest : List (String × OVal)) :
    mergeEntries h base ((k, OVal.prim p) :: rest) =
      mergeEntries (h.write base (setAssoc (h.find base) k (PVal.prim p))) base rest := by
  simp [mergeEntries, allocOVal]

theorem merge_cons_dict_ref (h : Heap) (base : Nat) (k : String)
    (es rest : List (String × OVal)) (a : Nat)
    (hget : getAssoc (h.find base) k = some (PVal.ref a)) :
    mergeEntries h base ((k, OVal.dict es) :: rest) =
      mergeEntries (mergeEntries h a es) base rest := by
  simp [mergeEntries, hget]

theorem merge_append (base : Nat) (xs ys : List (String × OVal)) (h : Heap) :
    mergeEntries h base (xs ++ ys) =
      mergeEntries (mergeEntries h base xs) base ys := by
  induction xs generalizing h with
  | nil => simp [merge_nil]
  | cons kv rest ih =>
      obtain ⟨k, v⟩ := kv
      cases v with
      | prim p =>
          rw [List.cons_append, merge_cons_prim, merge_cons_prim, ih]
      | dict es =>
          rcases hg : getAssoc (h.find base) k with _ | pv
          · rw [List.cons_append]
            simp only [mergeEntries, hg]
            rw [ih]
          · cases pv with
            | prim q =>
                rw [List.cons_append]
                simp only [mergeEntries, hg]
                rw [ih]
            | ref a =>
                rw [List.cons_append, merge_cons_dict_ref _ _ _ _ _ _ hg,
                    merge_cons_dict_ref _ _ _ _ _ _ hg, ih]

theorem merge_opt_key (h : Heap) (base : Nat) (k : String) (K : Option Prim)
    (d : Prim)
    (hd : getAssoc (h.find base) k = some (PVal.prim d))
    (hm : getAssoc h.mem base = some (h.find base)) :
    mergeEntries h base (optPrimE k K) =
      h.write base (setAssoc (h.find base) k (PVal.prim (K.getD d))) := by
  cases K with
  | none =>
      simp only [optPrimE, merge_nil, Option.getD_none]
      rw [setAssoc_self _ _ _ hd, Heap.write_self h base hm]
  | some p =>
      simp only [optPrimE, Option.getD_some]
      rw [merge_cons_prim, merge_nil]

/-- The `"ai"` dictionary (address 1) after merging a user overlay: overlay
leaves win, absent leaves keep their previous values `d1 .. d5`. -/
theorem merge_ai (h : Heap) (r : Nat) (d1 d2 d3 d4 d5 : Prim) (a : AiOverlay)
    (hfind : h.find r =
      [("provider", PVal.prim d1), ("model", PVal.prim d2),
       ("temperature", PVal.prim d3), ("max_tokens", PVal.prim d4),
       ("api_key", PVal.prim d5)])
    (hm : getAssoc h.mem r = some (h.find r)) :
    mergeEntries h r (encodeAi a) =
      h.write r
        [("provider", PVal.prim (a.provider.getD d1)),
         ("model", PVal.prim (a.model.getD d2)),
         ("temperature", PVal.prim (a.temperature.getD d3)),
         ("max_tokens", PVal.prim (a.max_tokens.getD d4)),
         ("api_key", PVal.prim (a.api_key.getD d5))] := by
  obtain ⟨K1, K2, K3, K4, K5⟩ := a
  simp only [encodeAi]
  rw [merge_append, merge_append, merge_append, merge_append]
  rw [merge_opt_key h r "provider" K1 d1 (by rw [hfind]; rfl) hm]
  rw [hfind]
  simp [setAssoc]
  rw [merge_opt_key _ r "model" K2 d2 (by rw [Heap.find_write_self]; rfl)
        (by rw [Heap.find_write_self]; exact Heap.mem_write_self h r _)]
  rw [Heap.find_write_self, Heap.write_write]
  simp [setAssoc]
  rw [merge_opt_key _ r "temperature" K3 d3 (by rw [Heap.find_write_self]; rfl)
        (by rw [Heap.find_write_self]; exact Heap.mem_write_self h r _)]
  rw [Heap.find_write_self, Heap.write_write]
  simp [setAssoc]
  rw [merge_opt_key _ r "max_tokens" K4 d4 (by rw [Heap.find_write_self]; rfl)
        (by rw [Heap.find_write_self]; exact Heap.mem_write_self h r _)]
  rw [Heap.find_write_self, Heap.write_write]
  simp [setAssoc]
  rw [merge_opt_key _ r "api_key" K5 d5 (by rw [Heap.find_write_self]; rfl)
        (by rw [Heap.find_write_self]; exact Heap.mem_write_self h r _)]
  rw [Heap.find_write_self, Heap.write_write]
  simp [setAssoc]

/-! ## Cross-address heap lemmas -/

theorem getAssoc_setAssoc_ne {α β : Type} [DecidableEq α]
    (m : List (α × β)) (a b : α) (es : β) (hab : a ≠ b) :
    getAssoc (setAssoc m a es) b = getAssoc m b := by
  induction m with
  | nil => simp [getAssoc, setAssoc, hab]
  | cons kv rest ih =>
      obtain ⟨k, v⟩ := kv
      by_cases hk : k = a
      · simp [getAssoc, setAssoc, hk, hab]
      · simp [getAssoc, setAssoc, hk, ih]

theorem Heap.find_write_ne (h : Heap) (a b : Nat) (es : List (String × PVal))
    (hab : a ≠ b) : (h.write a es).find b = h.find b := by
  simp [Heap.find, Heap.write, getAssoc_setAssoc_ne _ _ _ _ hab]

theorem Heap.mem_write_ne (h : Heap) (a b : Nat) (es : List (String × PVal))
    (hab : a ≠ b) : getAssoc (h.write a es).mem b = getAssoc h.mem b := by
  simp [Heap.write, getAssoc_setAssoc_ne _ _ _ _ hab]

/-- `Option.getD` absorbs a repeated merge of the same optional leaf. -/
theorem opt_getD_getD {α : Type} (K : Option α) (d : α) :
    K.getD (K.getD d) = K.getD d := by
  cases K <;> rfl

/-- Merging a user overlay's two top-level scalar keys into a dictionary of the
top-level shape: overlay leaves win, absent leaves keep their values. -/
theorem merge_top (h : Heap) (b : Nat) (c1 c2 : Prim) (cs dtl : Option Prim)
    (hfind : h.find b =
      [("ai", PVal.ref 1), ("commit_style", PVal.prim c1),
       ("diff_truncation_limit", PVal.prim c2)])
    (hm : getAssoc h.mem b = some (h.find b)) :
    mergeEntries h b
      (optPrimE "commit_style" cs ++ optPrimE "diff_truncation_limit" dtl) =
    h.write b
      [("ai", PVal.ref 1), ("commit_style", PVal.prim (cs.getD c1)),
       ("diff_truncation_limit", PVal.prim (dtl.getD c2))] := by
  rw [merge_append]
  rw [merge_opt_key h b "commit_style" cs c1 (by rw [hfind]; rfl) hm]
  rw [hfind]
  simp [setAssoc]
  rw [merge_opt_key _ b "diff_truncation_limit" dtl c2
        (by rw [Heap.find_write_self]; rfl)
        (by rw [Heap.find_write_self]; exact Heap.mem_write_self h b _)]
  rw [Heap.find_write_self, Heap.write_write]
  simp [setAssoc]

/-! ## The two loads performed by one run -/

/-- The `"ai"` dictionary (address 1) after `load_config()` with overlay `ov`:
overlay leaves win, absent leaves keep their defaults. -/
def aiAfter (ov : UserOverlay) : List (String × PVal) :=
  [("provider", PVal.prim ((ov.ai.bind AiOverlay.provider).getD (Prim.str "openai"))),
   ("model", PVal.prim ((ov.ai.bind AiOverlay.model).getD (Prim.str "gpt-3.5-turbo"))),
   ("temperature", PVal.prim ((ov.ai.bind AiOverlay.temperature).getD (Prim.float (7 / 10)))),
   ("max_tokens", PVal.prim ((ov.ai.bind AiOverlay.max_tokens).getD (Prim.int 100))),
   ("api_key", PVal.prim ((ov.ai.bind AiOverlay.api_key).getD (Prim.str "")))]

/-- The merged top-level dictionary after `load_config()`; its `"ai"` slot
still references the (shared) dictionary at address 1. -/
def topAfter (ov : UserOverlay) : List (String × PVal) :=
  [("ai", PVal.ref 1),
   ("commit_style", PVal.prim (ov.commit_style.getD (Prim.str "conventional"))),
   ("diff_truncation_limit", PVal.prim (ov.diff_truncation_limit.getD (Prim.int 4000)))]

/-- The heap after one `load_config()` on the initial heap: address 2 holds the
merged copy, and — because the copy was shallow — address 1 (the `"ai"`
dictionary of `DEFAULT_CONFIG` itself) has been mutated to `aiAfter ov`. -/
def postHeap (ov : UserOverlay) : Heap :=
  ⟨[(0, defaultTopEntries), (1, aiAfter ov), (2, topAfter ov)], 3⟩

/-- The heap after a second `load_config()` with the same overlay. -/
def postHeap2 (ov : UserOverlay) : Heap :=
  ⟨[(0, defaultTopEntries), (1, aiAfter ov), (2, topAfter ov), (3, topAfter ov)], 4⟩

/-- The heap right after `DEFAULT_CONFIG.copy()` in the first load. -/
def copiedHeap1 : Heap :=
  ⟨[(0, defaultTopEntries), (1, defaultAiEntries), (2, defaultTopEntries)], 3⟩

/-- The heap right after `DEFAULT_CONFIG.copy()` in the second load. -/
def copiedHeap2 (ov : UserOverlay) : Heap :=
  ⟨[(0, defaultTopEntries), (1, aiAfter ov), (2, topAfter ov), (3, defaultTopEntries)], 4⟩

/-- Evaluation of one `load_config()` on the initial heap, for every overlay:
the merged dictionary is address 2 and the heap becomes `postHeap ov`. -/
theorem load_heap (ov : UserOverlay) :
    load_config_model defaultHeap (encodeOverlay ov) = (2, postHeap ov) := by
  obtain ⟨ai, cs, dtl⟩ := ov
  have h0 : load_config_model defaultHeap (encodeOverlay ⟨ai, cs, dtl⟩) =
      (2, mergeEntries copiedHeap1 2 (encodeOverlay ⟨ai, cs, dtl⟩)) := rfl
  rw [h0]
  refine congrArg (Prod.mk 2) ?_
  cases ai with
  | none =>
      simp only [encodeOverlay, encodeAiTop, List.nil_append]
      rw [merge_top copiedHeap1 2 (Prim.str "conventional") (Prim.int 4000) cs dtl rfl rfl]
      rfl
  | some a =>
      simp only [encodeOverlay, encodeAiTop]
      rw [List.append_assoc, merge_append]
      rw [merge_cons_dict_ref copiedHeap1 2 "ai" (encodeAi a) [] 1 rfl]
      rw [merge_nil]
      rw [merge_ai copiedHeap1 1 (Prim.str "openai") (Prim.str "gpt-3.5-turbo")
            (Prim.float (7 / 10)) (Prim.int 100) (Prim.str "") a rfl rfl]
      rw [merge_top _ 2 (Prim.str "conventional") (Prim.int 4000) cs dtl
            (by rw [Heap.find_write_ne _ _ _ _ (by decide)]; rfl)
            (by rw [Heap.find_write_ne _ _ _ _ (by decide),
                    Heap.mem_write_ne _ _ _ _ (by decide)]; rfl)]
      rfl

/-- Evaluation of a second `load_config()` with the same overlay on the heap
left by the first: the merged dictionary is address 3 and the heap becomes
`postHeap2 ov` — the same configuration values again, since re-merging the
same overlay is idempotent on the contaminated defaults. -/
theorem load_heap2 (ov : UserOverlay) :
    load_config_model (postHeap ov) (encodeOverlay ov) = (3, postHeap2 ov) := by
  obtain ⟨ai, cs, dtl⟩ := ov
  have h0 : load_config_model (postHeap ⟨ai, cs, dtl⟩) (encodeOverlay ⟨ai, cs, dtl⟩) =
      (3, mergeEntries (copiedHeap2 ⟨ai, cs, dtl⟩) 3 (encodeOverlay ⟨ai, cs, dtl⟩)) := rfl
  rw [h0]
  refine congrArg (Prod.mk 3) ?_
  cases ai with
  | none =>
      simp only [encodeOverlay, encodeAiTop, List.nil_append]
      rw [merge_top (copiedHeap2 ⟨none, cs, dtl⟩) 3 (Prim.str "conventional")
            (Prim.int 4000) cs dtl rfl rfl]
      rfl
  | some a =>
      simp only [encodeOverlay, encodeAiTop]
      rw [List.append_assoc, merge_append]
      rw [merge_cons_dict_ref (copiedHeap2 ⟨some a, cs, dtl⟩) 3 "ai" (encodeAi a) [] 1 rfl]
      rw [merge_nil]
      rw [merge_ai (copiedHeap2 ⟨some a, cs, dtl⟩) 1
            (a.provider.getD (Prim.str "openai"))
            (a.model.getD (Prim.str "gpt-3.5-turbo"))
            (a.temperature.getD (Prim.float (7 / 10)))
            (a.max_tokens.getD (Prim.int 100))
            (a.api_key.getD (Prim.str "")) a rfl rfl]
      rw [merge_top _ 3 (Prim.str "conventional") (Prim.int 4000) cs dtl
            (by rw [Heap.find_write_ne _ _ _ _ (by decide)]; rfl)
            (by rw [Heap.find_write_ne _ _ _ _ (by decide),
                    Heap.mem_write_ne _ _ _ _ (by decide)]; rfl)]
      simp only [opt_getD_getD]
      rfl

/-! ## Named overlays used in concrete statements -/

/-- The empty configuration file (no recognised key present). -/
def emptyOverlay : UserOverlay := ⟨none, none, none⟩

/-- A configuration file containing exactly the default values. -/
def defaultsOverlay : UserOverlay :=
  ⟨some ⟨some (Prim.str "openai"), some (Prim.str "gpt-3.5-turbo"),
         some (Prim.float (7 / 10)), some (Prim.int 100), some (Prim.str "")⟩,
   some (Prim.str "conventional"), some (Prim.int 4000)⟩

/-- The configuration file `{"ai": {"api_key": "X"}}`. -/
def contaminOverlay : UserOverlay :=
  ⟨some ⟨none, none, none, none, some (Prim.str "X")⟩, none, none⟩

/-- A configuration file selecting the unsupported provider `"groq"`. -/
def unsupportedOverlay : UserOverlay :=
  ⟨some ⟨some (Prim.str "groq"), none, none, none, none⟩, none, none⟩

/-! ## config_utils.py: the absent-file branch and get_api_key -/

/-- The parsed content of the configuration file that `create_default_config`
writes (`yaml.dump(DEFAULT_CONFIG)` round-trips to the same mapping). -/
def defaultConfigOVal : List (String × OVal) :=
  [("ai", OVal.dict
      [("provider", OVal.prim (Prim.str "openai")),
       ("model", OVal.prim (Prim.str "gpt-3.5-turbo")),
       ("temperature", OVal.prim (Prim.float (7 / 10))),
       ("max_tokens", OVal.prim (Prim.int 100)),
       ("api_key", OVal.prim (Prim.str ""))]),
   ("commit_style", OVal.prim (Prim.str "conventional")),
   ("diff_truncation_limit", OVal.prim (Prim.int 4000))]

/-- The absent-file branch of `load_config()`: `create_default_config` writes
`DEFAULT_CONFIG` to the file at the resolved path, and two report lines are
printed.  Returns (written file content, printed lines). -/
def load_config_absent_model (pathText : String) :
    List (String × OVal) × List String :=
  (defaultConfigOVal,
   ["Created default configuration at " ++ pathText,
    "Please update it with your AI provider API key."])

/-- Lookup of a primitive leaf under the `"ai"` key of a parsed mapping. -/
def ovalAiLookup (es : List (String × OVal)) (k : String) : Option Prim :=
  match getAssoc es "ai" with
  | some (OVal.dict aes) =>
      match getAssoc aes k with
      | some (OVal.prim p) => some p
      | _ => none
  | _ => none

/-- `get_api_key()` from config_utils.py: `config = load_config()` (with its
heap effect), then the environment variable if set and non-empty (Python
truthiness), else `config["ai"]["api_key"]`.  Returns the produced value and
the heap after the embedded load. -/
def get_api_key_model (env : Option String) (h : Heap)
    (ovE : List (String × OVal)) : Option PVal × Heap :=
  match load_config_model h ovE with
  | (a, h2) =>
      match env with
      | some k =>
          (if k ≠ "" then some (PVal.prim (Prim.str k)) else cfgAi h2 a "api_key", h2)
      | none => (cfgAi h2 a "api_key", h2)

/-! ## ai_utils.py: provider selection -/

/-- The state of an `OpenAIProvider` instance after `__init__`. -/
structure OpenAIProvider where
  api_key : String
  model : String
  temperature : Rat
  max_tokens : Int
deriving DecidableEq

/-- The branching of `get_ai_provider()` once the resolved key and the four
`config["ai"]` slots are read: a non-string slot (impossible for the modelled
overlays) is `none`; `provider.lower()` is compared against `"openai"`; an
unsupported name raises `ValueError` with a message naming the lowered value;
otherwise an `OpenAIProvider` is built (`api_key or ""` in `__init__`). -/
def gap_key : Option PVal → Option PVal → Option PVal → Option PVal →
    Option PVal → Option (Except String OpenAIProvider)
  | some (PVal.prim (Prim.str ak)), some (PVal.prim (Prim.str prov)),
    mdlv, tempv, mtv =>
      if pyLowerS prov = "openai" then
        match mdlv, tempv, mtv with
        | some (PVal.prim (Prim.str mdl)), some (PVal.prim (Prim.float temp)),
          some (PVal.prim (Prim.int mt)) =>
            some (Except.ok
              { api_key := if ak = "" then "" else ak,
                model := mdl, temperature := temp, max_tokens := mt })
        | _, _, _ => none
      else
        some (Except.error ("Unsupported AI provider: " ++ pyLowerS prov))
  | _, _, _, _, _ => none

/-- `get_ai_provider()` from ai_utils.py: `config = load_config()` (first
load), `api_key = get_api_key()` (second load, same parsed file), then the
provider dispatch reading `config["ai"]` — which lives on the heap left by
both loads. -/
def get_ai_provider_model (env : Option String)
    (ovE : List (String × OVal)) : Option (Except String OpenAIProvider) :=
  match load_config_model defaultHeap ovE with
  | (a1, h1) =>
      match get_api_key_model env h1 ovE with
      | (keyv, h2) =>
          gap_key keyv (cfgAi h2 a1 "provider") (cfgAi h2 a1 "model")
            (cfgAi h2 a1 "temperature") (cfgAi h2 a1 "max_tokens")

/-- The API key that `get_api_key()` resolves, given the environment variable
and the configuration file's stored key. -/
def resolvedKey (env : Option String) (cfgKey : String) : String :=
  match env with
  | some k => if k ≠ "" then k else cfgKey
  | none => cfgKey

theorem str_or_empty (s : String) : (if s = "" then "" else s) = s := by
  by_cases h : s = "" <;> simp [h]

/-! ## main.py: the interactive Review loop -/

/-- Observable events of the `generate` command's interactive loop. -/
inductive ReviewEvent where
  | generated (msg : List Char)
  | committed (msg : List Char) (ok : Bool)
  | aborted
  | invalid
deriving DecidableEq

/-- The choice actually compared by main.py: `typer.prompt(..., default="y")`
returns `"y"` for empty input, and `.lower()` is applied. -/
def normChoice (input : String) : String :=
  pyLowerS (if input = "" then "y" else input)

/-- The `while True` Review loop of main.py (lines 95-128), driven by the
user's inputs: `y`/`yes` commits the current message and stops; `r`/
`regenerate` generates a fresh message (the k-th generation) and loops;
`n`/`no` aborts; anything else reports an invalid choice and re-prompts with
unchanged state.  `gens k` is the message the k-th generation call returns;
`commitOk` is the result of the commit subprocess. -/
def reviewLoop (gens : Nat → List Char) (commitOk : Bool) :
    Nat → List Char → List String → List ReviewEvent
  | _, _, [] => []
  | k, msg, input :: rest =>
      if normChoice input = "y" ∨ normChoice input = "yes" then
        [ReviewEvent.committed msg commitOk]
      else if normChoice input = "r" ∨ normChoice input = "regenerate" then
        ReviewEvent.generated (gens k) :: reviewLoop gens commitOk (k + 1) (gens k) rest
      else if normChoice input = "n" ∨ normChoice input = "no" then
        [ReviewEvent.aborted]
      else
        ReviewEvent.invalid :: reviewLoop gens commitOk k msg rest

/-- The `generate` command from the initial generation on: one generation
call before the loop, then the Review loop. -/
def generateReview (gens : Nat → List Char) (commitOk : Bool)
    (inputs : List String) : List ReviewEvent :=
  ReviewEvent.generated (gens 0) :: reviewLoop gens commitOk 1 (gens 0) inputs

/-- Recognise generation events. -/
def isGenEvent : ReviewEvent → Bool
  | ReviewEvent.generated _ => true
  | _ => false

/-- Recognise commit events. -/
def isCommitEvent : ReviewEvent → Bool
  | ReviewEvent.committed _ _ => true
  | _ => false

/-! ## Theorems: C1, C10, C6, C7 -/

/-- C1: for every diff text and positive truncation limit T, if the length is
at most T the diff is returned unmodified with truncated=false; if the length
exceeds T the result is exactly the first T characters followed by the fixed
truncation marker, truncated=true, and its length is T plus the marker's length. -/
theorem get_staged_diff_truncation (diff : List Char) (T : Int) (hT : 0 < T) :
    ((diff.length : Int) ≤ T → get_staged_diff diff (some T) = (diff, false)) ∧
    (T < (diff.length : Int) →
      get_staged_diff diff (some T) = (diff.take T.toNat ++ truncMarker, true) ∧
      (diff.take T.toNat ++ truncMarker).length = T.toNat + truncMarker.length) := by
  constructor
  · intro h
    simp only [get_staged_diff]
    rw [if_neg]
    exact fun hc => absurd hc.2 (not_lt.mpr h)
  · intro h
    have hcond : T ≠ 0 ∧ (diff.length : Int) > T := ⟨by omega, h⟩
    constructor
    · simp only [get_staged_diff]
      rw [if_pos hcond]
      simp only [pySliceTo]
      rw [if_pos (le_of_lt hT)]
    · simp only [List.length_append, List.length_take]
      omega

/-- Witness for C1 at a concrete diff and limit. -/
theorem get_staged_diff_truncation_witness :
    get_staged_diff "abcdef".data (some 3) = ("abcdef".data.take (3 : Int).toNat ++ truncMarker, true) :=
  ((get_staged_diff_truncation "abcdef".data 3 (by decide)).2 (by decide)).1

/-- C10: a truncation limit of None or of 0 disables truncation entirely: the
full diff is returned unmodified with truncated=false, regardless of its length. -/
theorem get_staged_diff_zero_or_none_limit (diff : List Char) :
    get_staged_diff diff none = (diff, false) ∧
    get_staged_diff diff (some 0) = (diff, false) := by
  refine ⟨rfl, ?_⟩
  simp only [get_staged_diff]
  rw [if_neg]
  exact fun hc => hc.1 rfl

/-- C6 counterexample: when the git binary is absent, `has_staged_changes`
raises `FileNotFoundError` instead of returning false, contrary to the claim
that it returns false on any failure including an absent binary. -/
theorem has_staged_changes_missing_binary_counterexample :
    has_staged_changes RunResult.fileNotFound = PyOutcome.exc PyExc.fileNotFoundError ∧
    has_staged_changes RunResult.fileNotFound ≠ PyOutcome.ret false := by
  decide

/-- C6 (amended): `has_staged_changes` returns true iff the staged-file listing
(the command's stdout, stripped) is non-empty; it returns false when the git
command exits non-zero; when the git binary is absent the `FileNotFoundError`
propagates (the function raises rather than returning false). -/
theorem has_staged_changes_behavior (out err : List Char) :
    (has_staged_changes (RunResult.ok out err) = PyOutcome.ret true ↔ pyStrip out ≠ []) ∧
    has_staged_changes (RunResult.calledProcessError err) = PyOutcome.ret false ∧
    has_staged_changes RunResult.fileNotFound = PyOutcome.exc PyExc.fileNotFoundError := by
  refine ⟨?_, rfl, rfl⟩
  simp only [has_staged_changes, PyOutcome.ret.injEq, Bool.not_eq_true']
  constructor
  · intro h hnil
    rw [hnil] at h
    simp at h
  · intro h
    rw [List.isEmpty_eq_false_iff_exists_mem]
    rcases (List.exists_mem_of_ne_nil _ h) with ⟨x, hx⟩
    exact ⟨x, hx⟩

/-- C7: `commit_changes` escapes embedded double quotes in the message and
passes the result to git as the single fourth argv element (argv has exactly
four elements, so the message is never split); it returns true on a successful
exit status, and on a failing exit status it reports the command's stderr and
returns false rather than raising. -/
theorem commit_changes_escaping_and_result (message out err : List Char) :
    commitArgv message =
      ["git".data, "commit".data, "-m".data, pyReplaceChar message '"' ['\\', '"']] ∧
    (commitArgv message).length = 4 ∧
    commit_changes (RunResult.ok out err) = PyOutcome.ret (true, none) ∧
    commit_changes (RunResult.calledProcessError err) =
      PyOutcome.ret (false, some ("Commit failed: ".data ++ err)) :=
  ⟨rfl, rfl, rfl, rfl⟩

/-! ## Theorems: C2, C3, C4, C5, C8, C9 -/

/-- C2: for every configuration file whose keys are a subset of the recognised
keys, `load_config()` returns a structure containing every default key, each
leaf present in the overlay equal to the overlay's value and every other leaf
equal to the default; and the merge is pointwise-idempotent — loading a file
holding exactly the defaults leaves every dictionary equal to the defaults. -/
theorem load_config_merge_defaults (ov : UserOverlay) :
    cfgAi (load_config_model defaultHeap (encodeOverlay ov)).2
        (load_config_model defaultHeap (encodeOverlay ov)).1 "provider" =
      some (PVal.prim ((ov.ai.bind AiOverlay.provider).getD (Prim.str "openai"))) ∧
    cfgAi (load_config_model defaultHeap (encodeOverlay ov)).2
        (load_config_model defaultHeap (encodeOverlay ov)).1 "model" =
      some (PVal.prim ((ov.ai.bind AiOverlay.model).getD (Prim.str "gpt-3.5-turbo"))) ∧
    cfgAi (load_config_model defaultHeap (encodeOverlay ov)).2
        (load_config_model defaultHeap (encodeOverlay ov)).1 "temperature" =
      some (PVal.prim ((ov.ai.bind AiOverlay.temperature).getD (Prim.float (7 / 10)))) ∧
    cfgAi (load_config_model defaultHeap (encodeOverlay ov)).2
        (load_config_model defaultHeap (encodeOverlay ov)).1 "max_tokens" =
      some (PVal.prim ((ov.ai.bind AiOverlay.max_tokens).getD (Prim.int 100))) ∧
    cfgAi (load_config_model defaultHeap (encodeOverlay ov)).2
        (load_config_model defaultHeap (encodeOverlay ov)).1 "api_key" =
      some (PVal.prim ((ov.ai.bind AiOverlay.api_key).getD (Prim.str ""))) ∧
    cfgTop (load_config_model defaultHeap (encodeOverlay ov)).2
        (load_config_model defaultHeap (encodeOverlay ov)).1 "commit_style" =
      some (PVal.prim (ov.commit_style.getD (Prim.str "conventional"))) ∧
    cfgTop (load_config_model defaultHeap (encodeOverlay ov)).2
        (load_config_model defaultHeap (encodeOverlay ov)).1 "diff_truncation_limit" =
      some (PVal.prim (ov.diff_truncation_limit.getD (Prim.int 4000))) ∧
    load_config_model defaultHeap (encodeOverlay defaultsOverlay) = (2, copiedHeap1) := by
  rw [load_heap ov]
  refine ⟨rfl, rfl, rfl, rfl, rfl, rfl, rfl, ?_⟩
  rw [load_heap defaultsOverlay]
  rfl

/-- C3: the shallow `DEFAULT_CONFIG.copy()` aliases the nested `"ai"`
dictionary, so `load_config()` with the file `{"ai": {"api_key": "X"}}`
mutates the module-level `DEFAULT_CONFIG` itself: afterwards
`DEFAULT_CONFIG["ai"]["api_key"]` is `"X"` (it was `""`), and a later
`load_config()` in the same process with an empty file returns `"X"`. -/
theorem load_config_mutates_default_config :
    cfgAi (load_config_model defaultHeap (encodeOverlay contaminOverlay)).2 0 "api_key" =
      some (PVal.prim (Prim.str "X")) ∧
    cfgAi defaultHeap 0 "api_key" = some (PVal.prim (Prim.str "")) ∧
    cfgAi (load_config_model (load_config_model defaultHeap (encodeOverlay contaminOverlay)).2 []).2
        (load_config_model (load_config_model defaultHeap (encodeOverlay contaminOverlay)).2 []).1
        "api_key" = some (PVal.prim (Prim.str "X")) := by
  have hA : load_config_model defaultHeap (encodeOverlay contaminOverlay) =
      (2, postHeap contaminOverlay) := load_heap contaminOverlay
  have hB : load_config_model (postHeap contaminOverlay) [] =
      (3, copiedHeap2 contaminOverlay) := by
    show (3, mergeEntries (copiedHeap2 contaminOverlay) 3 []) =
      (3, copiedHeap2 contaminOverlay)
    rw [merge_nil]
  refine ⟨?_, rfl, ?_⟩
  · rw [hA]
    rfl
  · rw [hA]
    show cfgAi (load_config_model (postHeap contaminOverlay) []).2
        (load_config_model (postHeap contaminOverlay) []).1 "api_key" =
      some (PVal.prim (Prim.str "X"))
    rw [hB]
    rfl

/-- C4 counterexample: the configuration file created on first run stores
provider `"openai"`, not `"default-provider"` as the claim states. -/
theorem default_config_provider_counterexample :
    ¬ (ovalAiLookup (load_config_absent_model "~/.commy/config.yaml").1 "provider" =
        some (Prim.str "default-provider")) := by
  decide

/-- C4 (amended): when the configuration file is absent, `load_config()`
creates it populated with the hard-coded defaults — provider `"openai"`,
model `"gpt-3.5-turbo"`, temperature 0.7, max output tokens 100, empty API
key, commit style `"conventional"`, diff truncation limit 4000 — and reports
the creation to the user with two printed lines. -/
theorem create_default_config_contents (pathText : String) :
    ovalAiLookup (load_config_absent_model pathText).1 "provider" =
      some (Prim.str "openai") ∧
    ovalAiLookup (load_config_absent_model pathText).1 "model" =
      some (Prim.str "gpt-3.5-turbo") ∧
    ovalAiLookup (load_config_absent_model pathText).1 "temperature" =
      some (Prim.float (7 / 10)) ∧
    ovalAiLookup (load_config_absent_model pathText).1 "max_tokens" =
      some (Prim.int 100) ∧
    ovalAiLookup (load_config_absent_model pathText).1 "api_key" =
      some (Prim.str "") ∧
    getAssoc (load_config_absent_model pathText).1 "commit_style" =
      some (OVal.prim (Prim.str "conventional")) ∧
    getAssoc (load_config_absent_model pathText).1 "diff_truncation_limit" =
      some (OVal.prim (Prim.int 4000)) ∧
    (load_config_absent_model pathText).2 =
      ["Created default configuration at " ++ pathText,
       "Please update it with your AI provider API key."] :=
  ⟨rfl, rfl, rfl, rfl, rfl, rfl, rfl, rfl⟩

/-- C5: `get_api_key()` returns the environment variable's value whenever it
is set and non-empty, regardless of the configuration file's content; it
returns the configuration file's stored key (default `""`) exactly when the
environment variable is unset or empty. -/
theorem get_api_key_precedence (env : Option String) (ov : UserOverlay) :
    (∀ k : String, env = some k → k ≠ "" →
      (get_api_key_model env defaultHeap (encodeOverlay ov)).1 =
        some (PVal.prim (Prim.str k))) ∧
    (env = none ∨ env = some "" →
      (get_api_key_model env defaultHeap (encodeOverlay ov)).1 =
        some (PVal.prim ((ov.ai.bind AiOverlay.api_key).getD (Prim.str "")))) := by
  constructor
  · rintro k rfl hk
    simp only [get_api_key_model]
    rw [load_heap ov]
    simp [hk]
  · rintro (rfl | rfl)
    · simp only [get_api_key_model]
      rw [load_heap ov]
      rfl
    · simp only [get_api_key_model]
      rw [load_heap ov]
      rfl

/-- Witness for C5 at a concrete environment value and the empty file. -/
theorem get_api_key_precedence_witness :
    (get_api_key_model (some "KEY") defaultHeap (encodeOverlay emptyOverlay)).1 =
      some (PVal.prim (Prim.str "KEY")) ∧
    (get_api_key_model none defaultHeap (encodeOverlay emptyOverlay)).1 =
      some (PVal.prim (Prim.str "")) :=
  ⟨(get_api_key_precedence (some "KEY") emptyOverlay).1 "KEY" rfl (by decide),
   (get_api_key_precedence none emptyOverlay).2 (Or.inl rfl)⟩

/-- C8: when the configured provider name (lower-cased, as the code compares
it) is not `"openai"`, provider selection fails with a `ValueError` whose
message names the unsupported provider value; when it is `"openai"`, an
`OpenAIProvider` is returned carrying the resolved API key, the configured
model, temperature and token cap. -/
theorem get_ai_provider_selection (env : Option String) (ov : UserOverlay)
    (prov mdl key : String) (temp : Rat) (mt : Int)
    (hp : (ov.ai.bind AiOverlay.provider).getD (Prim.str "openai") = Prim.str prov)
    (hm : (ov.ai.bind AiOverlay.model).getD (Prim.str "gpt-3.5-turbo") = Prim.str mdl)
    (ht : (ov.ai.bind AiOverlay.temperature).getD (Prim.float (7 / 10)) = Prim.float temp)
    (hmt : (ov.ai.bind AiOverlay.max_tokens).getD (Prim.int 100) = Prim.int mt)
    (hk : (ov.ai.bind AiOverlay.api_key).getD (Prim.str "") = Prim.str key) :
    (pyLowerS prov ≠ "openai" →
      get_ai_provider_model env (encodeOverlay ov) =
        some (Except.error ("Unsupported AI provider: " ++ pyLowerS prov))) ∧
    (pyLowerS prov = "openai" →
      get_ai_provider_model env (encodeOverlay ov) =
        some (Except.ok { api_key := resolvedKey env key, model := mdl,
                          temperature := temp, max_tokens := mt })) := by
  cases env with
  | none =>
      have hx : get_ai_provider_model none (encodeOverlay ov) =
          gap_key
            (some (PVal.prim ((ov.ai.bind AiOverlay.api_key).getD (Prim.str ""))))
            (some (PVal.prim ((ov.ai.bind AiOverlay.provider).getD (Prim.str "openai"))))
            (some (PVal.prim ((ov.ai.bind AiOverlay.model).getD (Prim.str "gpt-3.5-turbo"))))
            (some (PVal.prim ((ov.ai.bind AiOverlay.temperature).getD (Prim.float (7 / 10)))))
            (some (PVal.prim ((ov.ai.bind AiOverlay.max_tokens).getD (Prim.int 100)))) := by
        simp only [get_ai_provider_model, get_api_key_model, load_heap, load_heap2]
        rfl
      rw [hp, hm, ht, hmt, hk] at hx
      constructor
      · intro hprov
        rw [hx]
        simp [gap_key, hprov]
      · intro hprov
        rw [hx]
        simp [gap_key, hprov, resolvedKey, str_or_empty]
  | some k =>
      by_cases hk0 : k = ""
      · subst hk0
        have hx : get_ai_provider_model (some "") (encodeOverlay ov) =
            gap_key
              (some (PVal.prim ((ov.ai.bind AiOverlay.api_key).getD (Prim.str ""))))
              (some (PVal.prim ((ov.ai.bind AiOverlay.provider).getD (Prim.str "openai"))))
              (some (PVal.prim ((ov.ai.bind AiOverlay.model).getD (Prim.str "gpt-3.5-turbo"))))
              (some (PVal.prim ((ov.ai.bind AiOverlay.temperature).getD (Prim.float (7 / 10)))))
              (some (PVal.prim ((ov.ai.bind AiOverlay.max_tokens).getD (Prim.int 100)))) := by
          simp only [get_ai_provider_model, get_api_key_model, load_heap, load_heap2]
          rfl
        rw [hp, hm, ht, hmt, hk] at hx
        constructor
        · intro hprov
          rw [hx]
          simp [gap_key, hprov]
        · intro hprov
          rw [hx]
          simp [gap_key, hprov, resolvedKey, str_or_empty]
      · have hx : get_ai_provider_model (some k) (encodeOverlay ov) =
            gap_key (some (PVal.prim (Prim.str k)))
              (some (PVal.prim ((ov.ai.bind AiOverlay.provider).getD (Prim.str "openai"))))
              (some (PVal.prim ((ov.ai.bind AiOverlay.model).getD (Prim.str "gpt-3.5-turbo"))))
              (some (PVal.prim ((ov.ai.bind AiOverlay.temperature).getD (Prim.float (7 / 10)))))
              (some (PVal.prim ((ov.ai.bind AiOverlay.max_tokens).getD (Prim.int 100)))) := by
          simp only [get_ai_provider_model, get_api_key_model, load_heap, load_heap2]
          simp [hk0]
          rfl
        rw [hp, hm, ht, hmt] at hx
        constructor
        · intro hprov
          rw [hx]
          simp [gap_key, hprov]
        · intro hprov
          rw [hx]
          simp [gap_key, hprov, resolvedKey, hk0, str_or_empty]

/-- Witness for C8: the unsupported provider `"groq"` yields the configuration
error naming it, and the default configuration yields the configured backend. -/
theorem get_ai_provider_selection_witness :
    get_ai_provider_model none (encodeOverlay unsupportedOverlay) =
      some (Except.error ("Unsupported AI provider: " ++ pyLowerS "groq")) ∧
    get_ai_provider_model none (encodeOverlay emptyOverlay) =
      some (Except.ok { api_key := resolvedKey none "", model := "gpt-3.5-turbo",
                        temperature := 7 / 10, max_tokens := 100 }) :=
  ⟨(get_ai_provider_selection none unsupportedOverlay "groq" "gpt-3.5-turbo" ""
      (7 / 10) 100 rfl rfl rfl rfl rfl).1 (by decide),
   (get_ai_provider_selection none emptyOverlay "openai" "gpt-3.5-turbo" ""
      (7 / 10) 100 rfl rfl rfl rfl rfl).2 (by decide)⟩

/-- C9: in the interactive Review loop, selecting regenerate twice and then
yes produces exactly three generation calls and exactly one commit call, the
committed message being the third generated message; and any input outside
the closed choice set re-prompts without changing the loop state or the
displayed message. -/
theorem review_loop_regenerate_scenario (gens : Nat → List Char) (commitOk : Bool) :
    (generateReview gens commitOk ["r", "r", "y"] =
      [ReviewEvent.generated (gens 0), ReviewEvent.generated (gens 1),
       ReviewEvent.generated (gens 2), ReviewEvent.committed (gens 2) commitOk]) ∧
    (generateReview gens commitOk ["r", "r", "y"]).countP isGenEvent = 3 ∧
    (generateReview gens commitOk ["r", "r", "y"]).countP isCommitEvent = 1 ∧
    (∀ (input : String) (k : Nat) (msg : List Char) (rest : List String),
      normChoice input ∉ ["y", "yes", "r", "regenerate", "n", "no"] →
      reviewLoop gens commitOk k msg (input :: rest) =
        ReviewEvent.invalid :: reviewLoop gens commitOk k msg rest) := by
  refine ⟨rfl, rfl, rfl, ?_⟩
  intro input k msg rest hmem
  simp [not_or] at hmem
  obtain ⟨h1, h2, h3, h4, h5, h6⟩ := hmem
  simp only [reviewLoop]
  rw [if_neg (not_or.mpr ⟨h1, h2⟩), if_neg (not_or.mpr ⟨h3, h4⟩),
      if_neg (not_or.mpr ⟨h5, h6⟩)]

/-- Witness for C9 at a concrete generator, commit result and invalid input. -/
theorem review_loop_regenerate_scenario_witness :
    generateReview (fun _ => ['m']) true ["r", "r", "y"] =
      [ReviewEvent.generated ['m'], ReviewEvent.generated ['m'],
       ReviewEvent.generated ['m'], ReviewEvent.committed ['m'] true] ∧
    reviewLoop (fun _ => ['m']) true 1 ['m'] ["x"] =
      ReviewEvent.invalid :: reviewLoop (fun _ => ['m']) true 1 ['m'] [] :=
  ⟨(review_loop_regenerate_scenario (fun _ => ['m']) true).1,
   (review_loop_regenerate_scenario (fun _ => ['m']) true).2.2.2 "x" 1 ['m'] []
     (by decide)⟩
